import Mathlib

/-!
Shallow embedding of the workflow transition/authorization resolution logic
of the multi-tenant case-management service (Express/TypeScript backend).

The embedded code lives in:
  - src/src/routes/auth.ts   (case routes: POST /, GET /:id, POST /:id/action)
  - src/src/routes/workflows.ts (zod schema for workflow configs)
  - src/src/middleware/auth.ts (authenticate / validateTenant / authorize /
    checkResourceAccess)
  - src/src/middleware/errorHandler.ts (error classes and status codes)

Timestamps are modelled as natural numbers of milliseconds (JS Date.now()).
JavaScript falsiness of an optional numeric field (undefined, null or 0) is
modelled explicitly where the code relies on it.
-/

namespace CaseFlow

/-- One step of collapsing whitespace runs: the Bool records whether the
previous character was whitespace (so that a run emits one underscore).
Mirrors the regex replace of `/\s+/g` by an underscore. -/
def collapseWsAux : Bool → List Char → List Char
  | _, [] => []
  | prevWs, c :: rest =>
    if c.isWhitespace then
      (if prevWs then [] else ['_']) ++ collapseWsAux true rest
    else
      c :: collapseWsAux false rest

/-- `label.toLowerCase().replace(/\s+/g, '_')` from routes/auth.ts line 550:
lower-case each character, then each maximal whitespace run becomes one
underscore. -/
def normalizeLabel (s : String) : String :=
  ⟨collapseWsAux false (s.data.map Char.toLower)⟩

/-- A workflow stage (workflows.ts `workflowStageSchema`). `slaHours` is kept
optional to model JS optional-chain access `stage?.slaHours` on raw JSON. -/
structure Stage where
  id : String
  label : String
  slaHours : Option Nat
  assignToRoles : Option (List String)
  requiredFields : Option (List String)
  deriving Repr, DecidableEq

/-- A workflow transition (workflows.ts `workflowTransitionSchema`).
The source fields `from` and `to` are Lean keywords, embedded here as
`from_` and `to_`. -/
structure Transition where
  id : String
  from_ : String
  to_ : String
  label : String
  condition : String
  roles : List String
  actions : List String
  requiresApproval : Option Bool
  deriving Repr, DecidableEq

/-- An auto-rule (workflows.ts `autoRules` schema entry). -/
structure AutoRule where
  id : String
  stage : String
  trigger : String
  action : String
  condition : Option String
  deriving Repr, DecidableEq

/-- The JSON `config` blob of a workflow_configs row. -/
structure WorkflowConfig where
  stages : List Stage
  transitions : List Transition
  autoRules : List AutoRule
  deriving Repr, DecidableEq

/-- A workflow_configs database row (the columns the handlers read). -/
structure WorkflowRow where
  workflow_id : String
  tenant_id : String
  name : String
  is_active : Bool
  config : WorkflowConfig
  deriving Repr, DecidableEq

/-- The `metadata` JSON column of a cases row (fields written by the
creation and action handlers in routes/auth.ts). -/
structure CaseMetadata where
  slaDeadline : Option Nat
  escalationLevel : Nat
  tags : List String
  source : String
  lastAction : Option String
  lastActionBy : Option String
  deriving Repr, DecidableEq

/-- A cases database row (the columns the handlers read and write). -/
structure Case where
  id : String
  tenant_id : String
  workflow_id : String
  current_stage : String
  status : String
  priority : String
  assigned_to : Option String
  created_by : String
  metadata : CaseMetadata
  updated_at : Nat
  deriving Repr, DecidableEq

/-- A case_history database row (append-only log). -/
structure CaseHistoryEntry where
  case_id : String
  action : String
  from_stage : Option String
  to_stage : Option String
  performed_by : String
  comment : Option String
  deriving Repr, DecidableEq

/-- Domain errors of the service, one constructor per distinct throw site
relevant to the embedded handlers (errorHandler.ts classes).
`invalidTransition` is the ValidationError thrown at routes/auth.ts line 555,
whose message interpolates the attempted action, current stage and role;
`invalidWorkflow` is the ValidationError 'Invalid or inactive workflow'
thrown at line 325 of the creation handler. -/
inductive DomainError where
  | validation (msg : String)
  | invalidTransition (action stage role : String)
  | invalidWorkflow
  | notFound (msg : String)
  | unauthenticated (msg : String)
  | forbidden (msg : String)
  deriving Repr, DecidableEq

/-- HTTP status of each domain error, per the `statusCode` fields of the
error classes in errorHandler.ts (ValidationError 400, AuthenticationError
401, AuthorizationError 403, NotFoundError 404). -/
def DomainError.statusCode : DomainError → Nat
  | .validation _ => 400
  | .invalidTransition _ _ _ => 400
  | .invalidWorkflow => 400
  | .notFound _ => 404
  | .unauthenticated _ => 401
  | .forbidden _ => 403

/-- The predicate of the `find` at routes/auth.ts lines 548-552:
`t.from === currentStage && t.label.toLowerCase().replace(/\s+/g,'_') === action
&& t.roles.includes(role)`. -/
def matchesTransition (currentStage action role : String) (t : Transition) : Bool :=
  t.from_ == currentStage && normalizeLabel t.label == action && t.roles.contains role

/-- `workflowConfig.transitions?.find(...)` — linear scan in stored order,
first match wins (routes/auth.ts lines 548-552). -/
def findValidTransition (cfg : WorkflowConfig) (currentStage action role : String) :
    Option Transition :=
  cfg.transitions.find? (matchesTransition currentStage action role)

/-- Status update of routes/auth.ts lines 560-569: start from the case's
prior status; completed/rejected map to themselves; any other non-draft
stage maps to in_progress; a draft destination leaves the prior status. -/
def nextStatus (priorStatus newStage : String) : String :=
  if newStage == "completed" then "completed"
  else if newStage == "rejected" then "rejected"
  else if newStage != "draft" then "in_progress"
  else priorStatus

/-- `workflowConfig.stages?.find(s => s.id === newStage)`
(routes/auth.ts line 572). -/
def findStage (cfg : WorkflowConfig) (stageId : String) : Option Stage :=
  cfg.stages.find? (fun s => s.id == stageId)

/-- `targetStageConfig?.slaHours ? new Date(Date.now() + slaHours*3600000) : null`
(routes/auth.ts lines 573-575). A missing stage, a missing slaHours, or a
zero slaHours are all JS-falsy and yield no deadline. -/
def computeSlaDeadline (cfg : WorkflowConfig) (newStage : String) (now : Nat) :
    Option Nat :=
  match (findStage cfg newStage).bind Stage.slaHours with
  | some (h + 1) => some (now + (h + 1) * 60 * 60 * 1000)
  | _ => none

/-- The success payload of POST /:id/action (routes/auth.ts lines 643-648). -/
structure ActionResponse where
  caseId : String
  newStage : String
  newStatus : String
  slaDeadline : Option Nat
  deriving Repr, DecidableEq

/-- The pure core of the action handler: resolve the transition for
(currentStage, action, role) and compute newStage/newStatus/slaDeadline
(routes/auth.ts lines 548-575), or fail with the InvalidTransition error. -/
def resolveAction (cfg : WorkflowConfig) (c : Case) (action role : String) (now : Nat) :
    Except DomainError ActionResponse :=
  match findValidTransition cfg c.current_stage action role with
  | none => .error (.invalidTransition action c.current_stage role)
  | some validTransition =>
    let newStage := validTransition.to_
    let newStatus := nextStatus c.status newStage
    let newSlaDeadline := computeSlaDeadline cfg newStage now
    .ok { caseId := c.id, newStage := newStage, newStatus := newStatus,
          slaDeadline := newSlaDeadline }

/-- The relevant persisted state: workflow_configs, cases and the
append-only case_history table. -/
structure Store where
  workflows : List WorkflowRow
  cases : List Case
  history : List CaseHistoryEntry
  deriving Repr, DecidableEq

/-- `supabase.from('cases').select(...).eq('id', caseId)
.eq('tenant_id', tenantId).single()` (routes/auth.ts lines 527-535). -/
def lookupCase (store : Store) (caseId tenantId : String) : Option Case :=
  store.cases.find? (fun c => c.id == caseId && c.tenant_id == tenantId)

/-- The `workflow_configs(config)` embedded join on a cases row, following
the (workflow_id, tenant_id) foreign key; `currentCase.workflow_configs?.config`
(routes/auth.ts line 542). -/
def joinWorkflowConfig (store : Store) (c : Case) : Option WorkflowConfig :=
  (store.workflows.find? (fun w =>
    w.workflow_id == c.workflow_id && w.tenant_id == c.tenant_id)).map WorkflowRow.config

/-- `.update({...}).eq('id', caseId)`: rewrite every cases row whose id
matches (the update filters by id only). -/
def updateCases (cases : List Case) (caseId : String) (f : Case → Case) : List Case :=
  cases.map (fun c => if c.id == caseId then f c else c)

/-- The POST /api/{tenant}/cases/{id}/action handler body after input
validation (routes/auth.ts lines 516-654): fetch the case and its workflow
config, resolve the transition, then update the case row and append one
case_history row; on any failure the store is returned untouched. -/
def caseActionStep (store : Store) (tenantId caseId action : String)
    (comment : Option String) (userId role : String) (now : Nat) :
    Store × Except DomainError ActionResponse :=
  match lookupCase store caseId tenantId with
  | none => (store, .error (.notFound "Case not found"))
  | some currentCase =>
    match joinWorkflowConfig store currentCase with
    | none => (store, .error (.validation "Workflow configuration not found"))
    | some workflowConfig =>
      match resolveAction workflowConfig currentCase action role now with
      | .error e => (store, .error e)
      | .ok resp =>
        let updatedCases := updateCases store.cases caseId (fun c =>
          { c with
            current_stage := resp.newStage,
            status := resp.newStatus,
            metadata := { c.metadata with
              slaDeadline := resp.slaDeadline,
              lastAction := some action,
              lastActionBy := some userId },
            updated_at := now })
        let entry : CaseHistoryEntry :=
          { case_id := caseId, action := action,
            from_stage := some currentCase.current_stage,
            to_stage := some resp.newStage,
            performed_by := userId, comment := comment }
        ({ store with cases := updatedCases, history := store.history ++ [entry] },
         .ok resp)

/-- `supabase.from('workflow_configs').select(...).eq('workflow_id', workflowId)
.eq('tenant_id', tenantId).eq('is_active', true).single()`
(routes/auth.ts lines 316-322). -/
def findActiveWorkflow (workflows : List WorkflowRow) (workflowId tenantId : String) :
    Option WorkflowRow :=
  workflows.find? (fun w =>
    w.workflow_id == workflowId && w.tenant_id == tenantId && w.is_active)

/-- `(workflow.config?.stages?.[0]?.slaHours || 48)` (routes/auth.ts line 344):
JS `||` falls back to 48 when slaHours is absent or 0. -/
def initialSlaHours (stages : List Stage) : Nat :=
  match stages.head? with
  | none => 48
  | some s =>
    match s.slaHours with
    | some (h + 1) => h + 1
    | _ => 48

/-- The POST /api/{tenant}/cases handler body after input validation
(routes/auth.ts lines 306-399, without the optional loan-case branch):
resolve the active workflow of the tenant, else fail with the
InvalidWorkflow error before any write; on success insert the seeded cases
row and append the 'created' case_history row. -/
def createCaseStep (store : Store) (tenantId userId workflowId newCaseId : String)
    (now : Nat) : Store × Except DomainError Case :=
  match findActiveWorkflow store.workflows workflowId tenantId with
  | none => (store, .error .invalidWorkflow)
  | some workflow =>
    let initialStage := ((workflow.config.stages.head?).map Stage.id).getD "draft"
    let newCase : Case :=
      { id := newCaseId, tenant_id := tenantId, workflow_id := workflowId,
        current_stage := initialStage, status := "draft", priority := "medium",
        assigned_to := none, created_by := userId,
        metadata :=
          { slaDeadline := some (now + initialSlaHours workflow.config.stages * 60 * 60 * 1000),
            escalationLevel := 0, tags := [], source := "manual",
            lastAction := none, lastActionBy := none },
        updated_at := now }
    let entry : CaseHistoryEntry :=
      { case_id := newCaseId, action := "created", from_stage := none,
        to_stage := none, performed_by := userId, comment := some "Case created" }
    let inserted : Store :=
      { store with cases := store.cases ++ [newCase],
                   history := store.history ++ [entry] }
    (inserted, .ok newCase)

/-- workflows.ts `workflowStageSchema`: id and label nonempty, slaHours a
number with min(0) (always satisfied by Nat, but it must be present). -/
def stageSchemaOk (s : Stage) : Bool :=
  1 ≤ s.id.length && 1 ≤ s.label.length && s.slaHours.isSome

/-- workflows.ts `workflowTransitionSchema`: id, from, to, label, condition
all nonempty strings; roles and actions arrays. Note: `to` is only required
to be a nonempty string, not a declared stage id. -/
def transitionSchemaOk (t : Transition) : Bool :=
  1 ≤ t.id.length && 1 ≤ t.from_.length && 1 ≤ t.to_.length &&
  1 ≤ t.label.length && 1 ≤ t.condition.length

/-- workflows.ts `workflowConfigSchema` on the parts the resolver reads:
at least one stage, every stage and transition well-formed. -/
def configSchemaOk (cfg : WorkflowConfig) : Bool :=
  1 ≤ cfg.stages.length && cfg.stages.all stageSchemaOk &&
  cfg.transitions.all transitionSchemaOk

/-- The stage ids declared by a configuration. -/
def stageIds (cfg : WorkflowConfig) : List String :=
  cfg.stages.map Stage.id

/-- Outcome of `jwt.verify` on the Authorization header in middleware/auth.ts
lines 22-30: header absent or not Bearer; JsonWebTokenError; TokenExpiredError;
or a decoded payload carrying the user id. -/
inductive TokenVerify where
  | missing
  | malformed
  | expired
  | ok (userId : String)
  deriving Repr, DecidableEq

/-- A users database row (the columns the middleware reads). -/
structure UserRow where
  id : String
  email : String
  name : String
  role : String
  tenant_id : String
  is_active : Bool
  deriving Repr, DecidableEq

/-- A tenants database row (the columns the middleware reads). -/
structure TenantRow where
  id : String
  name : String
  domain : String
  is_active : Bool
  deriving Repr, DecidableEq

/-- The users and tenants tables seen by the auth middleware. -/
structure AuthEnv where
  users : List UserRow
  tenants : List TenantRow
  deriving Repr, DecidableEq

/-- The request context populated by `authenticate`
(middleware/auth.ts lines 58-69). -/
structure AuthContext where
  userId : String
  role : String
  tenantId : String
  tenantDbId : String
  tenantDomain : String
  deriving Repr, DecidableEq

/-- The user query of middleware/auth.ts lines 33-41:
`.eq('id', decoded.id).eq('is_active', true)` with an inner join on
`tenants`; the row only comes back when the user exists, is active, and its
tenant row exists. -/
def authLookupUser (env : AuthEnv) (userId : String) : Option (UserRow × TenantRow) :=
  match env.users.find? (fun u => u.id == userId && u.is_active) with
  | none => none
  | some u => (env.tenants.find? (fun t => t.id == u.tenant_id)).map (fun t => (u, t))

/-- The `authenticate` middleware (middleware/auth.ts lines 20-92): each
failure branch throws AuthenticationError (HTTP 401); success populates the
request context. -/
def authenticate (env : AuthEnv) (tok : TokenVerify) : Except DomainError AuthContext :=
  match tok with
  | .missing => .error (.unauthenticated "Access denied. No token provided.")
  | .malformed => .error (.unauthenticated "Invalid token format.")
  | .expired => .error (.unauthenticated "Token has expired.")
  | .ok userId =>
    match authLookupUser env userId with
    | none => .error (.unauthenticated "Invalid or expired token.")
    | some (u, t) =>
      if !t.is_active then
        .error (.unauthenticated "Tenant account is inactive.")
      else
        .ok { userId := u.id, role := u.role, tenantId := u.tenant_id,
              tenantDbId := t.id, tenantDomain := t.domain }

/-- The `validateTenant` middleware (middleware/auth.ts lines 114-133): the
path tenant parameter must equal the bound tenant's domain or id, else
AuthorizationError (HTTP 403). -/
def validateTenant (ctx : AuthContext) (tenantParam : String) : Except DomainError Unit :=
  if tenantParam != ctx.tenantDomain && tenantParam != ctx.tenantDbId then
    .error (.forbidden "Access denied. Invalid tenant context.")
  else
    .ok ()

/-- The `authorize(roles)` middleware (middleware/auth.ts lines 94-112):
the actor's role must be in the endpoint's allow-list, else
AuthorizationError (HTTP 403). -/
def authorizeRole (allowRoles : List String) (ctx : AuthContext) : Except DomainError Unit :=
  if !allowRoles.contains ctx.role then
    .error (.forbidden "Access denied. Insufficient permissions.")
  else
    .ok ()

/-- The guard pipeline an endpoint installs: authenticate, then
validateTenant, then authorize with the endpoint's allow-list. -/
def accessGuard (env : AuthEnv) (tok : TokenVerify) (tenantParam : String)
    (allowRoles : List String) : Except DomainError AuthContext :=
  match authenticate env tok with
  | .error e => .error e
  | .ok ctx =>
    match validateTenant ctx tenantParam with
    | .error e => .error e
    | .ok _ =>
      match authorizeRole allowRoles ctx with
      | .error e => .error e
      | .ok _ => .ok ctx

/-- HTTP status of a guard outcome (success renders 200). -/
def guardStatus (r : Except DomainError AuthContext) : Nat :=
  match r with
  | .error e => e.statusCode
  | .ok _ => 200

/-- The `checkResourceAccess('case')` middleware (middleware/auth.ts lines
136-169): fetch the case's assigned_to/created_by scoped by tenant; reject
with AuthorizationError (HTTP 403) when the row is missing or the actor is
neither Admin nor the assignee nor the creator. -/
def checkResourceAccessCase (store : Store) (ctx : AuthContext) (caseId : String) :
    Except DomainError Unit :=
  match lookupCase store caseId ctx.tenantId with
  | none => .error (.forbidden "Resource not found or access denied.")
  | some caseData =>
    let hasAccess := ctx.role == "Admin" ||
      caseData.assigned_to == some ctx.userId ||
      caseData.created_by == ctx.userId
    if !hasAccess then
      .error (.forbidden "Access denied to this resource.")
    else
      .ok ()

/-- POST /api/{tenant}/cases/{id}/action as routed (routes/auth.ts line 516):
`checkResourceAccess('case')` runs before the handler body. -/
def caseActionRoute (store : Store) (ctx : AuthContext) (caseId action : String)
    (comment : Option String) (now : Nat) : Store × Except DomainError ActionResponse :=
  match checkResourceAccessCase store ctx caseId with
  | .error e => (store, .error e)
  | .ok _ => caseActionStep store ctx.tenantId caseId action comment ctx.userId ctx.role now

/-- GET /api/{tenant}/cases/{id} as routed (routes/auth.ts line 480):
`checkResourceAccess('case')` runs before the fetch. -/
def caseGetRoute (store : Store) (ctx : AuthContext) (caseId : String) :
    Except DomainError Case :=
  match checkResourceAccessCase store ctx caseId with
  | .error e => .error e
  | .ok _ =>
    match lookupCase store caseId ctx.tenantId with
    | none => .error (.notFound "Case not found")
    | some c => .ok c

/-- Erase the (stored-but-unevaluated) condition string of a transition.
Used to state that resolver outcomes do not depend on conditions. -/
def stripTransition (t : Transition) : Transition :=
  { t with condition := "" }

/-- Erase the optional condition string of an auto-rule. -/
def stripAutoRule (r : AutoRule) : AutoRule :=
  { r with condition := none }

/-- A configuration with every condition field erased: two configurations
are "identical except for conditions" exactly when their stripped forms are
equal. -/
def stripConfig (cfg : WorkflowConfig) : WorkflowConfig :=
  { cfg with transitions := cfg.transitions.map stripTransition,
             autoRules := cfg.autoRules.map stripAutoRule }

/-! Concrete fixtures used by witnesses and counterexamples. -/

/-- Fresh metadata with no deadline. -/
def emptyMeta : CaseMetadata :=
  { slaDeadline := none, escalationLevel := 0, tags := [], source := "manual",
    lastAction := none, lastActionBy := none }

def stageDraft : Stage :=
  { id := "draft", label := "Draft", slaHours := some 24,
    assignToRoles := none, requiredFields := none }

def stageDocVerify : Stage :=
  { id := "doc_verify", label := "Document Verification", slaHours := some 48,
    assignToRoles := none, requiredFields := none }

/-- A stage whose slaHours is the JS-falsy 0. -/
def stageReviewZero : Stage :=
  { id := "review", label := "Review", slaHours := some 0,
    assignToRoles := none, requiredFields := none }

def transSubmitA : Transition :=
  { id := "t1", from_ := "draft", to_ := "doc_verify", label := "Submit Application",
    condition := "pd_score < 0.05 && requested_amount < 100000",
    roles := ["Maker"], actions := [], requiresApproval := none }

/-- A second transition matching the same (from, label, Maker) triple as
`transSubmitA`, stored later in the list. -/
def transSubmitB : Transition :=
  { id := "t2", from_ := "draft", to_ := "review", label := "Submit Application",
    condition := "true", roles := ["Maker", "Checker"], actions := [],
    requiresApproval := none }

/-- A transition whose destination is the draft stage. -/
def transSendBack : Transition :=
  { id := "t3", from_ := "review", to_ := "draft", label := "Send Back",
    condition := "true", roles := ["Checker"], actions := [],
    requiresApproval := none }

def ruleScore : AutoRule :=
  { id := "r1", stage := "doc_verify", trigger := "onEnter",
    action := "call:ai/score", condition := some "pd_score > 0" }

def demoConfig : WorkflowConfig :=
  { stages := [stageDraft, stageDocVerify, stageReviewZero],
    transitions := [transSubmitA, transSubmitB, transSendBack],
    autoRules := [ruleScore] }

/-- `demoConfig` with only the condition fields changed. -/
def demoConfigAltConds : WorkflowConfig :=
  { stages := [stageDraft, stageDocVerify, stageReviewZero],
    transitions :=
      [{ transSubmitA with condition := "always" },
       { transSubmitB with condition := "never" },
       { transSendBack with condition := "1 == 1" }],
    autoRules := [{ ruleScore with condition := none }] }

def caseDraft : Case :=
  { id := "case-1", tenant_id := "t-1", workflow_id := "wf-1",
    current_stage := "draft", status := "draft", priority := "medium",
    assigned_to := none, created_by := "u-1", metadata := emptyMeta,
    updated_at := 0 }

def caseReview : Case :=
  { id := "case-2", tenant_id := "t-1", workflow_id := "wf-1",
    current_stage := "review", status := "in_progress", priority := "medium",
    assigned_to := none, created_by := "u-1", metadata := emptyMeta,
    updated_at := 0 }

def wfRowDemo : WorkflowRow :=
  { workflow_id := "wf-1", tenant_id := "t-1", name := "Demo Loan Flow",
    is_active := true, config := demoConfig }

def storeDemo : Store :=
  { workflows := [wfRowDemo], cases := [caseDraft], history := [] }

/-- A transition whose `to` names no declared stage: it passes the zod
schema (nonempty string) yet dangles. -/
def transGhost : Transition :=
  { id := "t9", from_ := "draft", to_ := "ghost", label := "Go",
    condition := "true", roles := ["Maker"], actions := [],
    requiresApproval := none }

def ghostConfig : WorkflowConfig :=
  { stages := [stageDraft], transitions := [transGhost], autoRules := [] }

/-- A workflow whose first stage has slaHours 0. -/
def zeroConfig : WorkflowConfig :=
  { stages := [stageReviewZero], transitions := [], autoRules := [] }

def wfRowZero : WorkflowRow :=
  { workflow_id := "wf-z", tenant_id := "t-1", name := "Zero SLA",
    is_active := true, config := zeroConfig }

def storeZero : Store :=
  { workflows := [wfRowZero], cases := [], history := [] }

def wfRowInactive : WorkflowRow :=
  { workflow_id := "wf-i", tenant_id := "t-1", name := "Retired Flow",
    is_active := false, config := demoConfig }

def storeInactive : Store :=
  { workflows := [wfRowInactive], cases := [], history := [] }

/-- A case owned and worked by user u-2. -/
def caseOther : Case :=
  { id := "case-3", tenant_id := "t-1", workflow_id := "wf-1",
    current_stage := "draft", status := "draft", priority := "medium",
    assigned_to := some "u-2", created_by := "u-2", metadata := emptyMeta,
    updated_at := 0 }

/-- An authenticated Maker who is neither assignee nor creator of case-3. -/
def ctxMaker : AuthContext :=
  { userId := "u-3", role := "Maker", tenantId := "t-1",
    tenantDbId := "tid-1", tenantDomain := "demo" }

def storeGate : Store :=
  { workflows := [wfRowDemo], cases := [caseOther], history := [] }

/-- The response the resolver produces for `caseReview` on send_back. -/
def respSendBack : ActionResponse :=
  { caseId := "case-2", newStage := "draft", newStatus := "in_progress",
    slaDeadline := some (0 + 24 * 60 * 60 * 1000) }

/-- The response the resolver produces for a Maker submitting `caseDraft`
at time 5. -/
def respToDocVerify : ActionResponse :=
  { caseId := "case-1", newStage := "doc_verify", newStatus := "in_progress",
    slaDeadline := some (5 + 48 * 60 * 60 * 1000) }

/-- The response the resolver produces for a Checker submitting `caseDraft`
at time 5: the destination stage review has slaHours 0, so no deadline. -/
def respToReview : ActionResponse :=
  { caseId := "case-1", newStage := "review", newStatus := "in_progress",
    slaDeadline := none }

/-- The case `createCaseStep` seeds from `wfRowDemo` at time 3. -/
def seededCase : Case :=
  { id := "case-7", tenant_id := "t-1", workflow_id := "wf-1",
    current_stage := "draft", status := "draft", priority := "medium",
    assigned_to := none, created_by := "u-1",
    metadata := { slaDeadline := some (3 + 24 * 60 * 60 * 1000),
                  escalationLevel := 0, tags := [], source := "manual",
                  lastAction := none, lastActionBy := none },
    updated_at := 3 }

/-- `storeDemo` after seeding `seededCase`. -/
def storeDemoAfterCreate : Store :=
  { workflows := [wfRowDemo], cases := [caseDraft, seededCase],
    history := [{ case_id := "case-7", action := "created", from_stage := none,
                  to_stage := none, performed_by := "u-1",
                  comment := some "Case created" }] }

/-! Theorems. -/

/-- The status update, rephrased as a single conditional on the
destination stage: draft destinations keep the prior status. -/
theorem nextStatus_eq (priorStatus newStage : String) :
    nextStatus priorStatus newStage =
      (if newStage = "completed" then "completed"
       else if newStage = "rejected" then "rejected"
       else if newStage = "draft" then priorStatus
       else "in_progress") := by
  unfold nextStatus
  by_cases h1 : newStage = "completed" <;> by_cases h2 : newStage = "rejected" <;>
    by_cases h3 : newStage = "draft" <;> simp [h1, h2, h3]

/-- Successful resolution decomposed: some transition was found and the
response fields are computed from it. -/
theorem resolveAction_ok_elim (cfg : WorkflowConfig) (c : Case)
    (action role : String) (now : Nat) (resp : ActionResponse)
    (h : resolveAction cfg c action role now = .ok resp) :
    ∃ t, findValidTransition cfg c.current_stage action role = some t ∧
      resp.caseId = c.id ∧ resp.newStage = t.to_ ∧
      resp.newStatus = nextStatus c.status t.to_ ∧
      resp.slaDeadline = computeSlaDeadline cfg t.to_ now := by
  unfold resolveAction at h
  cases hf : findValidTransition cfg c.current_stage action role with
  | none => rw [hf] at h; exact absurd h (by simp)
  | some t =>
    rw [hf] at h
    simp only [Except.ok.injEq] at h
    exact ⟨t, rfl, by rw [← h], by rw [← h], by rw [← h], by rw [← h]⟩

/-- A successful linear `find?` returns the element at the first index
satisfying the predicate: every strictly earlier index fails it. -/
theorem find?_first_index {α : Type} (p : α → Bool) (l : List α) (t : α)
    (hfind : l.find? p = some t) :
    ∃ i, ∃ h : i < l.length, l.get ⟨i, h⟩ = t ∧ p t = true ∧
      ∀ j (hj : j < i), p (l.get ⟨j, Nat.lt_trans hj h⟩) = false := by
  induction l with
  | nil => simp [List.find?] at hfind
  | cons a l ih =>
    by_cases hpa : p a = true
    · rw [List.find?_cons_of_pos l hpa] at hfind
      cases hfind
      exact ⟨0, Nat.succ_pos _, rfl, hpa, fun j hj => absurd hj (Nat.not_lt_zero j)⟩
    · rw [List.find?_cons_of_neg l hpa] at hfind
      obtain ⟨i, h, hget, hpt, hprev⟩ := ih hfind
      refine ⟨i + 1, Nat.succ_lt_succ h, hget, hpt, ?_⟩
      intro j hj
      cases j with
      | zero => simpa using hpa
      | succ j' => simpa using hprev j' (Nat.lt_of_succ_lt_succ hj)

/-- C1: the transition resolver scans the configuration's transitions in
stored order and selects the first transition whose `from` equals the
case's current stage, whose normalized label equals the requested action,
and whose roles contain the actor's role; any transition stored earlier
than the selected one fails that triple, so when two transitions both
match, the earlier one is always selected. -/
theorem transition_selection_first_match_wins
    (cfg : WorkflowConfig) (currentStage action role : String) (t : Transition)
    (hfind : findValidTransition cfg currentStage action role = some t) :
    ∃ i, ∃ h : i < cfg.transitions.length,
      cfg.transitions.get ⟨i, h⟩ = t ∧
      matchesTransition currentStage action role t = true ∧
      ∀ j (hj : j < i),
        matchesTransition currentStage action role
          (cfg.transitions.get ⟨j, Nat.lt_trans hj h⟩) = false :=
  find?_first_index (matchesTransition currentStage action role) cfg.transitions t hfind

/-- Witness for C1: in `demoConfig` both `transSubmitA` and `transSubmitB`
match (draft, submit_application, Maker); the resolver selects the
earlier-stored `transSubmitA`. -/
theorem transition_selection_first_match_wins_witness :
    findValidTransition demoConfig "draft" "submit_application" "Maker" =
      some transSubmitA ∧
    matchesTransition "draft" "submit_application" "Maker" transSubmitB = true ∧
    (∃ i, ∃ h : i < demoConfig.transitions.length,
      demoConfig.transitions.get ⟨i, h⟩ = transSubmitA ∧
      matchesTransition "draft" "submit_application" "Maker" transSubmitA = true ∧
      ∀ j (hj : j < i),
        matchesTransition "draft" "submit_application" "Maker"
          (demoConfig.transitions.get ⟨j, Nat.lt_trans hj h⟩) = false) :=
  ⟨rfl, by decide,
   transition_selection_first_match_wins demoConfig "draft" "submit_application"
     "Maker" transSubmitA rfl⟩

/-- Counterexample for C2: on `demoConfig`, a Checker's send_back moves
`caseReview` (status in_progress) to the draft stage, yet the resulting
status stays in_progress rather than becoming draft, so the status is not
the claimed function of the destination stage alone. -/
theorem status_draft_destination_counterexample :
    resolveAction demoConfig caseReview "send_back" "Checker" 0 =
      .ok respSendBack ∧
    respSendBack.newStage = "draft" ∧
    respSendBack.newStatus ≠ "draft" :=
  ⟨rfl, rfl, by decide⟩

/-- C2 (amended): for every accepted transition, the new status is
"completed" when the destination is completed, "rejected" when rejected,
the case's *prior* status when the destination is draft, and "in_progress"
for any other destination. -/
theorem status_derivation_of_destination
    (cfg : WorkflowConfig) (c : Case) (action role : String) (now : Nat)
    (resp : ActionResponse)
    (h : resolveAction cfg c action role now = .ok resp) :
    resp.newStatus =
      (if resp.newStage = "completed" then "completed"
       else if resp.newStage = "rejected" then "rejected"
       else if resp.newStage = "draft" then c.status
       else "in_progress") := by
  obtain ⟨t, _, _, hstage, hstatus, _⟩ := resolveAction_ok_elim cfg c action role now resp h
  rw [hstatus, hstage, nextStatus_eq]

/-- Witness for C2 (amended) at the draft-destination input. -/
theorem status_derivation_of_destination_witness :
    resolveAction demoConfig caseReview "send_back" "Checker" 0 =
      .ok respSendBack ∧
    respSendBack.newStatus =
      (if respSendBack.newStage = "completed" then "completed"
       else if respSendBack.newStage = "rejected" then "rejected"
       else if respSendBack.newStage = "draft" then caseReview.status
       else "in_progress") :=
  ⟨rfl, status_derivation_of_destination demoConfig caseReview "send_back" "Checker" 0
    respSendBack rfl⟩

/-- C3: when the (currentStage, action, role) triple matches no transition
of the case's workflow configuration, the action endpoint fails with the
InvalidTransition error carrying the attempted action, the current stage
and the role, the error renders as HTTP 400, and the store is returned
unchanged: no case update and no case_history append happens. -/
theorem invalid_transition_leaves_store_unchanged
    (store : Store) (tenantId caseId action : String) (comment : Option String)
    (userId role : String) (now : Nat) (c : Case) (cfg : WorkflowConfig)
    (hcase : lookupCase store caseId tenantId = some c)
    (hcfg : joinWorkflowConfig store c = some cfg)
    (hnomatch : ∀ t ∈ cfg.transitions,
      matchesTransition c.current_stage action role t = false) :
    caseActionStep store tenantId caseId action comment userId role now =
      (store, .error (.invalidTransition action c.current_stage role)) ∧
    (DomainError.invalidTransition action c.current_stage role).statusCode = 400 := by
  have hfind : findValidTransition cfg c.current_stage action role = none := by
    unfold findValidTransition
    exact List.find?_eq_none.mpr (by simpa using hnomatch)
  refine ⟨?_, rfl⟩
  simp only [caseActionStep, hcase, hcfg, resolveAction, hfind]

/-- Witness for C3: approving from draft as a Maker matches nothing in
`demoConfig`; the store comes back untouched with the 400 error. -/
theorem invalid_transition_leaves_store_unchanged_witness :
    lookupCase storeDemo "case-1" "t-1" = some caseDraft ∧
    joinWorkflowConfig storeDemo caseDraft = some demoConfig ∧
    (∀ t ∈ demoConfig.transitions,
      matchesTransition caseDraft.current_stage "approve" "Maker" t = false) ∧
    (caseActionStep storeDemo "t-1" "case-1" "approve" none "u-1" "Maker" 7 =
      (storeDemo, .error (.invalidTransition "approve" caseDraft.current_stage "Maker")) ∧
    (DomainError.invalidTransition "approve" caseDraft.current_stage "Maker").statusCode = 400) :=
  ⟨rfl, rfl, by decide,
   invalid_transition_leaves_store_unchanged storeDemo "t-1" "case-1" "approve" none
     "u-1" "Maker" 7 caseDraft demoConfig rfl rfl (by decide)⟩

/-- Counterexample for C4: the review stage declares slaHours 0, yet the
accepted transition into it sets no deadline (0 is JS-falsy), instead of
the claimed now + 0 hours. -/
theorem sla_zero_hours_counterexample :
    resolveAction demoConfig caseDraft "submit_application" "Checker" 5 =
      .ok respToReview ∧
    findStage demoConfig respToReview.newStage = some stageReviewZero ∧
    stageReviewZero.slaHours = some 0 ∧
    respToReview.slaDeadline ≠ some (5 + 0 * 60 * 60 * 1000) :=
  ⟨rfl, rfl, rfl, by decide⟩

/-- C4 (amended): on an accepted transition the resolver looks the
destination stage up in the configuration's stage list; if it is absent,
or declares no slaHours, or declares slaHours 0, no deadline is set; if it
declares slaHours k with k positive, the new deadline is now + k hours. -/
theorem sla_deadline_on_accept
    (cfg : WorkflowConfig) (c : Case) (action role : String) (now : Nat)
    (resp : ActionResponse)
    (h : resolveAction cfg c action role now = .ok resp) :
    (findStage cfg resp.newStage = none → resp.slaDeadline = none) ∧
    (∀ s, findStage cfg resp.newStage = some s →
      ((s.slaHours = none ∨ s.slaHours = some 0) → resp.slaDeadline = none) ∧
      (∀ k, s.slaHours = some (k + 1) →
        resp.slaDeadline = some (now + (k + 1) * 60 * 60 * 1000))) := by
  obtain ⟨t, _, _, hstage, _, hsla⟩ := resolveAction_ok_elim cfg c action role now resp h
  rw [hstage, hsla]
  constructor
  · intro hnone
    simp [computeSlaDeadline, hnone]
  · intro s hs
    constructor
    · rintro (h0 | h0) <;> simp [computeSlaDeadline, hs, h0]
    · intro k hk
      simp [computeSlaDeadline, hs, hk]

/-- Witness for C4 (amended): the Maker path into doc_verify (slaHours 48)
sets the deadline now + 48 hours. -/
theorem sla_deadline_on_accept_witness :
    resolveAction demoConfig caseDraft "submit_application" "Maker" 5 =
      .ok respToDocVerify ∧
    ((findStage demoConfig respToDocVerify.newStage = none →
        respToDocVerify.slaDeadline = none) ∧
     (∀ s, findStage demoConfig respToDocVerify.newStage = some s →
       ((s.slaHours = none ∨ s.slaHours = some 0) →
          respToDocVerify.slaDeadline = none) ∧
       (∀ k, s.slaHours = some (k + 1) →
          respToDocVerify.slaDeadline = some (5 + (k + 1) * 60 * 60 * 1000)))) :=
  ⟨rfl, sla_deadline_on_accept demoConfig caseDraft "submit_application" "Maker" 5
    respToDocVerify rfl⟩

/-- Counterexample for C5: `ghostConfig` passes the write-time zod schema
(`to` only needs to be a nonempty string), yet its transition targets
"ghost", which is not a declared stage id; a Maker's go action is accepted
and moves the case to that undeclared stage. -/
theorem stage_invariant_counterexample :
    configSchemaOk ghostConfig = true ∧
    resolveAction ghostConfig caseDraft "go" "Maker" 0 =
      .ok { caseId := "case-1", newStage := "ghost",
            newStatus := "in_progress", slaDeadline := none } ∧
    "ghost" ∉ stageIds ghostConfig :=
  ⟨rfl, rfl, by decide⟩

/-- C5 (amended): the invariant holds for closed configurations. When the
bound configuration has a nonempty stage list, case creation seeds
currentStage to a declared stage id; and when every transition of the
configuration targets a declared stage id, every accepted transition keeps
the new stage inside the declared stage ids. -/
theorem stage_invariant_preserved :
    (∀ (store : Store) (tenantId userId workflowId newCaseId : String) (now : Nat)
       (w : WorkflowRow) (c : Case) (store2 : Store),
       findActiveWorkflow store.workflows workflowId tenantId = some w →
       w.config.stages ≠ [] →
       createCaseStep store tenantId userId workflowId newCaseId now =
         (store2, .ok c) →
       c.current_stage ∈ stageIds w.config) ∧
    (∀ (cfg : WorkflowConfig) (c : Case) (action role : String) (now : Nat)
       (resp : ActionResponse),
       cfg.transitions.all (fun t => (stageIds cfg).contains t.to_) = true →
       resolveAction cfg c action role now = .ok resp →
       resp.newStage ∈ stageIds cfg) := by
  constructor
  · intro store tenantId userId workflowId newCaseId now w c store2 hw hne hstep
    simp only [createCaseStep, hw] at hstep
    obtain ⟨-, hok⟩ := Prod.mk.inj hstep
    have hc := (Except.ok.inj hok).symm
    cases hs : w.config.stages with
    | nil => exact absurd hs hne
    | cons s0 rest =>
      have : c.current_stage = s0.id := by rw [hc]; simp [hs]
      rw [this, stageIds, hs]
      exact List.mem_cons_self _ _
  · intro cfg c action role now resp hall hok
    obtain ⟨t, hf, _, hstage, _, _⟩ := resolveAction_ok_elim cfg c action role now resp hok
    have hf' : cfg.transitions.find? (matchesTransition c.current_stage action role) =
        some t := hf
    have ht : t ∈ cfg.transitions := List.mem_of_find?_eq_some hf'
    have hcontains := List.all_eq_true.mp hall t ht
    rw [hstage]
    simpa using hcontains

/-- Witness for C5 (amended): `demoConfig` is closed (all three transitions
target declared stages); the seed lands on draft and the Maker submit
lands on doc_verify, both declared. -/
theorem stage_invariant_preserved_witness :
    findActiveWorkflow storeDemo.workflows "wf-1" "t-1" = some wfRowDemo ∧
    wfRowDemo.config.stages ≠ [] ∧
    createCaseStep storeDemo "t-1" "u-1" "wf-1" "case-7" 3 =
      (storeDemoAfterCreate, .ok seededCase) ∧
    seededCase.current_stage ∈ stageIds wfRowDemo.config ∧
    demoConfig.transitions.all (fun t => (stageIds demoConfig).contains t.to_) = true ∧
    resolveAction demoConfig caseDraft "submit_application" "Maker" 5 =
      .ok respToDocVerify ∧
    respToDocVerify.newStage ∈ stageIds demoConfig :=
  ⟨rfl, by decide, rfl,
   stage_invariant_preserved.1 storeDemo "t-1" "u-1" "wf-1" "case-7" 3 wfRowDemo
     seededCase storeDemoAfterCreate rfl (by decide) rfl,
   rfl, rfl,
   stage_invariant_preserved.2 demoConfig caseDraft "submit_application" "Maker" 5
     respToDocVerify rfl rfl⟩

/-- Counterexample for C6: seeding against `wfRowZero`, whose first stage
declares slaHours 0, yields a deadline of now + 48 hours (the `|| 48`
fallback in the creation handler), not the claimed now + 0 hours. -/
theorem creation_sla_zero_counterexample :
    wfRowZero.config.stages.head? = some stageReviewZero ∧
    stageReviewZero.slaHours = some 0 ∧
    (createCaseStep storeZero "t-1" "u-1" "wf-z" "case-9" 0).2.map
        (fun c => c.metadata.slaDeadline) =
      .ok (some (0 + 48 * 60 * 60 * 1000)) ∧
    some (0 + 48 * 60 * 60 * 1000) ≠ some ((0 : Nat) + 0 * 60 * 60 * 1000) :=
  ⟨rfl, rfl, rfl, by decide⟩

/-- C6 (amended): creating a case against an existing active workflow of
the tenant seeds currentStage to stages[0].id and status draft; the
initial SLA deadline is now + stages[0].slaHours hours when slaHours is
declared positive, and falls back to now + 48 hours when slaHours is
absent or 0. -/
theorem case_creation_seed
    (store : Store) (tenantId userId workflowId newCaseId : String) (now : Nat)
    (w : WorkflowRow) (s0 : Stage) (rest : List Stage)
    (hw : findActiveWorkflow store.workflows workflowId tenantId = some w)
    (hs : w.config.stages = s0 :: rest) :
    ∃ c, (createCaseStep store tenantId userId workflowId newCaseId now).2 = .ok c ∧
      c.current_stage = s0.id ∧ c.status = "draft" ∧
      (∀ k, s0.slaHours = some (k + 1) →
        c.metadata.slaDeadline = some (now + (k + 1) * 60 * 60 * 1000)) ∧
      ((s0.slaHours = none ∨ s0.slaHours = some 0) →
        c.metadata.slaDeadline = some (now + 48 * 60 * 60 * 1000)) := by
  simp only [createCaseStep, hw]
  refine ⟨_, rfl, ?_, rfl, ?_, ?_⟩
  · simp [hs]
  · intro k hk
    simp [initialSlaHours, hs, hk]
  · rintro (h0 | h0) <;> simp [initialSlaHours, hs, h0]

/-- Witness for C6 (amended): seeding from `wfRowDemo` (first stage draft,
slaHours 24) at time 3. -/
theorem case_creation_seed_witness :
    findActiveWorkflow storeDemo.workflows "wf-1" "t-1" = some wfRowDemo ∧
    wfRowDemo.config.stages = stageDraft :: [stageDocVerify, stageReviewZero] ∧
    (∃ c, (createCaseStep storeDemo "t-1" "u-1" "wf-1" "case-7" 3).2 = .ok c ∧
      c.current_stage = stageDraft.id ∧ c.status = "draft" ∧
      (∀ k, stageDraft.slaHours = some (k + 1) →
        c.metadata.slaDeadline = some (3 + (k + 1) * 60 * 60 * 1000)) ∧
      ((stageDraft.slaHours = none ∨ stageDraft.slaHours = some 0) →
        c.metadata.slaDeadline = some (3 + 48 * 60 * 60 * 1000))) :=
  ⟨rfl, rfl,
   case_creation_seed storeDemo "t-1" "u-1" "wf-1" "case-7" 3 wfRowDemo stageDraft
     [stageDocVerify, stageReviewZero] rfl rfl⟩

/-- C7: when the referenced workflow does not exist for the tenant, is
inactive, or belongs to a different tenant — i.e. no workflows row with
this workflow_id, this tenant_id and is_active — case creation fails with
the InvalidWorkflow error (HTTP 400) and the store is returned unchanged:
no cases row is created. -/
theorem create_case_invalid_workflow
    (store : Store) (tenantId userId workflowId newCaseId : String) (now : Nat)
    (hnone : ∀ w ∈ store.workflows,
      ¬(w.workflow_id = workflowId ∧ w.tenant_id = tenantId ∧ w.is_active = true)) :
    createCaseStep store tenantId userId workflowId newCaseId now =
      (store, .error .invalidWorkflow) ∧
    DomainError.invalidWorkflow.statusCode = 400 := by
  have hfind : findActiveWorkflow store.workflows workflowId tenantId = none := by
    unfold findActiveWorkflow
    refine List.find?_eq_none.mpr ?_
    intro w hw
    have hnw := hnone w hw
    simp only [Bool.and_eq_true, beq_iff_eq, not_and]
    intro h12 h3
    exact hnw ⟨h12.1, h12.2, h3⟩
  exact ⟨by simp only [createCaseStep, hfind], rfl⟩

/-- Witness for C7: the only workflow row of `storeInactive` is inactive,
so creation fails with InvalidWorkflow and the store is untouched. -/
theorem create_case_invalid_workflow_witness :
    (∀ w ∈ storeInactive.workflows,
      ¬(w.workflow_id = "wf-i" ∧ w.tenant_id = "t-1" ∧ w.is_active = true)) ∧
    (createCaseStep storeInactive "t-1" "u-1" "wf-i" "case-5" 0 =
      (storeInactive, .error .invalidWorkflow) ∧
     DomainError.invalidWorkflow.statusCode = 400) :=
  ⟨by decide,
   create_case_invalid_workflow storeInactive "t-1" "u-1" "wf-i" "case-5" 0 (by decide)⟩

/-- The matching predicate reads only from, label and roles, never the
condition, so stripping the condition preserves it. -/
theorem matchesTransition_strip (s a r : String) (t : Transition) :
    matchesTransition s a r (stripTransition t) = matchesTransition s a r t := rfl

/-- `find?` with the matching predicate commutes with condition
stripping. -/
theorem find?_strip (s a r : String) (l : List Transition) :
    (l.map stripTransition).find? (matchesTransition s a r) =
      (l.find? (matchesTransition s a r)).map stripTransition := by
  rw [List.find?_map]
  have hfun : matchesTransition s a r ∘ stripTransition = matchesTransition s a r :=
    funext fun t => matchesTransition_strip s a r t
  rw [hfun]

/-- C8: condition strings are never evaluated. For two configurations that
are identical except for the condition fields of their transitions and
auto-rules (their condition-stripped forms coincide), the resolver selects
the same transition (up to its condition field) and produces the identical
outcome — same newStage, newStatus and slaDeadline, or the same error. -/
theorem resolver_ignores_conditions
    (cfg1 cfg2 : WorkflowConfig) (c : Case) (action role : String) (now : Nat)
    (h : stripConfig cfg1 = stripConfig cfg2) :
    (findValidTransition cfg1 c.current_stage action role).map stripTransition =
      (findValidTransition cfg2 c.current_stage action role).map stripTransition ∧
    resolveAction cfg1 c action role now = resolveAction cfg2 c action role now := by
  have htrans : cfg1.transitions.map stripTransition =
      cfg2.transitions.map stripTransition := by
    have hc := congrArg WorkflowConfig.transitions h
    simpa [stripConfig] using hc
  have hstages : cfg1.stages = cfg2.stages := by
    have hc := congrArg WorkflowConfig.stages h
    simpa [stripConfig] using hc
  have hfind : (findValidTransition cfg1 c.current_stage action role).map stripTransition =
      (findValidTransition cfg2 c.current_stage action role).map stripTransition := by
    unfold findValidTransition
    rw [← find?_strip, ← find?_strip, htrans]
  refine ⟨hfind, ?_⟩
  unfold resolveAction
  cases h1 : findValidTransition cfg1 c.current_stage action role with
  | none =>
    cases h2 : findValidTransition cfg2 c.current_stage action role with
    | none => rfl
    | some t2 =>
      rw [h1, h2] at hfind
      exact absurd hfind (by simp)
  | some t1 =>
    cases h2 : findValidTransition cfg2 c.current_stage action role with
    | none =>
      rw [h1, h2] at hfind
      exact absurd hfind (by simp)
    | some t2 =>
      rw [h1, h2] at hfind
      have hst : stripTransition t1 = stripTransition t2 := by simpa using hfind
      have hto : t1.to_ = t2.to_ := by
        have hp := congrArg Transition.to_ hst
        simpa [stripTransition] using hp
      have hsla : computeSlaDeadline cfg1 t2.to_ now =
          computeSlaDeadline cfg2 t2.to_ now := by
        unfold computeSlaDeadline findStage
        rw [hstages]
      simp [hto, hsla]

/-- Witness for C8: `demoConfig` and `demoConfigAltConds` differ only in
their condition strings; a Maker submit resolves identically on both. -/
theorem resolver_ignores_conditions_witness :
    stripConfig demoConfig = stripConfig demoConfigAltConds ∧
    ((findValidTransition demoConfig caseDraft.current_stage
        "submit_application" "Maker").map stripTransition =
      (findValidTransition demoConfigAltConds caseDraft.current_stage
        "submit_application" "Maker").map stripTransition ∧
     resolveAction demoConfig caseDraft "submit_application" "Maker" 5 =
       resolveAction demoConfigAltConds caseDraft "submit_application" "Maker" 5) :=
  ⟨rfl, resolver_ignores_conditions demoConfig demoConfigAltConds caseDraft
    "submit_application" "Maker" 5 rfl⟩

/-- C9: the guard pipeline renders HTTP 401 exactly when the bearer token
is missing, malformed or expired, or the referenced user cannot be fetched
as an active row (or its tenant row is gone), or the bound tenant is
inactive; and it renders HTTP 403 exactly when authentication succeeded
but the path tenant parameter matches neither the bound tenant's domain
nor its id, or the actor's role is not in the endpoint's allow-list. -/
theorem access_guard_status_mapping
    (env : AuthEnv) (tok : TokenVerify) (tenantParam : String)
    (allowRoles : List String) :
    (guardStatus (accessGuard env tok tenantParam allowRoles) = 401 ↔
      (tok = .missing ∨ tok = .malformed ∨ tok = .expired ∨
       ∃ userId, tok = .ok userId ∧
         (authLookupUser env userId = none ∨
          ∃ p, authLookupUser env userId = some p ∧ p.2.is_active = false))) ∧
    (guardStatus (accessGuard env tok tenantParam allowRoles) = 403 ↔
      ∃ ctx, authenticate env tok = .ok ctx ∧
        ((tenantParam ≠ ctx.tenantDomain ∧ tenantParam ≠ ctx.tenantDbId) ∨
         allowRoles.contains ctx.role = false)) := by
  cases tok with
  | missing =>
    constructor <;>
      simp [accessGuard, authenticate, guardStatus, DomainError.statusCode]
  | malformed =>
    constructor <;>
      simp [accessGuard, authenticate, guardStatus, DomainError.statusCode]
  | expired =>
    constructor <;>
      simp [accessGuard, authenticate, guardStatus, DomainError.statusCode]
  | ok userId =>
    cases hlk : authLookupUser env userId with
    | none =>
      constructor <;>
        simp [accessGuard, authenticate, guardStatus, DomainError.statusCode, hlk]
    | some ut =>
      obtain ⟨u, t⟩ := ut
      by_cases hact : t.is_active = true
      · have hauth : authenticate env (.ok userId) = .ok
            { userId := u.id, role := u.role, tenantId := u.tenant_id,
              tenantDbId := t.id, tenantDomain := t.domain } := by
          simp [authenticate, hlk, hact]
        by_cases hdom : tenantParam = t.domain <;>
        by_cases hid : tenantParam = t.id <;>
        by_cases hrole : u.role ∈ allowRoles <;>
          constructor <;>
            simp [accessGuard, hauth, validateTenant, authorizeRole, guardStatus,
                  DomainError.statusCode, hlk, hact, hdom, hid, hrole]
      · have hact2 : t.is_active = false := by
          cases hb : t.is_active
          · rfl
          · exact absurd hb hact
        constructor
        · simp only [accessGuard, authenticate, guardStatus, DomainError.statusCode,
                     hlk, hact2]
          simp [hact2]
          exact Or.inr ⟨u, t, hlk, hact2⟩
        · simp [accessGuard, authenticate, guardStatus, DomainError.statusCode,
                hlk, hact2]

/-- C10: on GET /cases/:id and POST /cases/:id/action, an authenticated
actor who is not Admin and is neither the case's assignee nor its creator
is rejected with the 403 resource-access error before the handler body
runs: the store is unchanged and no transition resolution happens, whatever
transitions the workflow configuration contains. -/
theorem resource_gate_blocks_non_participants
    (store : Store) (ctx : AuthContext) (caseId action : String)
    (comment : Option String) (now : Nat) (c : Case)
    (hc : lookupCase store caseId ctx.tenantId = some c)
    (hrole : ctx.role ≠ "Admin")
    (hassigned : c.assigned_to ≠ some ctx.userId)
    (hcreator : c.created_by ≠ ctx.userId) :
    caseActionRoute store ctx caseId action comment now =
      (store, .error (.forbidden "Access denied to this resource.")) ∧
    caseGetRoute store ctx caseId =
      .error (.forbidden "Access denied to this resource.") ∧
    (DomainError.forbidden "Access denied to this resource.").statusCode = 403 := by
  have hgate : checkResourceAccessCase store ctx caseId =
      .error (.forbidden "Access denied to this resource.") := by
    simp only [checkResourceAccessCase, hc]
    have h1 : (ctx.role == "Admin") = false := by simp [hrole]
    have h2 : (c.assigned_to == some ctx.userId) = false := by simp [hassigned]
    have h3 : (c.created_by == ctx.userId) = false := by simp [hcreator]
    simp [h1, h2, h3]
  refine ⟨?_, ?_, rfl⟩
  · simp [caseActionRoute, hgate]
  · simp [caseGetRoute, hgate]

/-- Witness for C10: Maker u-3 is neither assignee nor creator of case-3,
so both routes answer 403 — although `demoConfig` does contain a matching
transition for (draft, submit_application, Maker). -/
theorem resource_gate_blocks_non_participants_witness :
    lookupCase storeGate "case-3" ctxMaker.tenantId = some caseOther ∧
    ctxMaker.role ≠ "Admin" ∧
    caseOther.assigned_to ≠ some ctxMaker.userId ∧
    caseOther.created_by ≠ ctxMaker.userId ∧
    findValidTransition demoConfig caseOther.current_stage "submit_application"
      ctxMaker.role = some transSubmitA ∧
    (caseActionRoute storeGate ctxMaker "case-3" "submit_application" none 9 =
      (storeGate, .error (.forbidden "Access denied to this resource.")) ∧
     caseGetRoute storeGate ctxMaker "case-3" =
      .error (.forbidden "Access denied to this resource.") ∧
     (DomainError.forbidden "Access denied to this resource.").statusCode = 403) :=
  ⟨rfl, by decide, by decide, by decide, rfl,
   resource_gate_blocks_non_participants storeGate ctxMaker "case-3"
     "submit_application" none 9 caseOther rfl (by decide) (by decide) (by decide)⟩

end CaseFlow

